import Mathlib

/-!
Shallow embedding of the `arxiv_spotlighter` pipeline:

* `src/utils/arxiv/_arxiv_paper_fetcher.py` — `ArxivPaperFetcherConfig`,
  `ArxivPaperFetcher` (`_make_query`, `_fetch_papers`, `run`);
* `src/utils/slack/_slack_notifier.py` — `SlackNotifierConfig`,
  `SlackNotifier` (`_make_payload`, `_send_request`, `run`);
* `src/main.py` — `parse_args`, `load_environment_variables`,
  `make_template`, `main`.

External collaborators (the arXiv search client, the OpenAI completion
model behind the LangChain chain, and the HTTP transport used by
`requests.post`) are passed in as function parameters, mirroring the
dependency-injection seams of the source.  Python exceptions are modelled
with an `Except PyError` result; every outbound webhook POST attempt is
recorded in a trace list so that "number of network calls" is a provable
quantity.
-/

/-- Python exceptions that the pipeline can raise: `TypeError` (a call is
missing a required argument), `ValueError` (explicit validation `raise`s in
the source), and `requests.exceptions.RequestException` (transport and HTTP
errors). -/
inductive PyError where
  | typeError (msg : String)
  | valueError (msg : String)
  | requestException (msg : String)
  deriving DecidableEq, Repr

/-- One fetched arXiv record; only the `summary` field is consumed by the
pipeline (`result.summary` in `ArxivPaperFetcher.run`). -/
structure ArxivResult where
  summary : String
  deriving DecidableEq, Repr

/-- The single sort criterion used by the source
(`arxiv.SortCriterion.SubmittedDate`). -/
inductive SortCriterion where
  | submittedDate
  deriving DecidableEq, Repr

/-- The search request built in `ArxivPaperFetcher._fetch_papers`
(`arxiv.Search(query=..., max_results=..., sort_by=...)`). -/
structure SearchRequest where
  query : String
  max_results : Int
  sort_by : SortCriterion
  deriving DecidableEq, Repr

/-- Outcome of one call to the arXiv search client: either a successful
list of records, or one of the three exception classes distinguished by
the `try/except` arms of `_fetch_papers`. -/
inductive SearchOutcome where
  | ok (results : List ArxivResult)
  | httpError (msg : String)
  | unexpectedEmptyPageError (msg : String)
  | otherError (msg : String)
  deriving DecidableEq, Repr

/-- `SearchOutcome.isError o` holds exactly when the client raised instead
of returning records. -/
def SearchOutcome.isError : SearchOutcome → Bool
  | .ok _ => false
  | .httpError _ => true
  | .unexpectedEmptyPageError _ => true
  | .otherError _ => true

/-- `ArxivPaperFetcherConfig` dataclass with its source defaults
(`date="20240101"`, `category="quant-ph"`, `max_results=2`). -/
structure ArxivPaperFetcherConfig where
  date : String := "20240101"
  category : String := "quant-ph"
  max_results : Int := 2
  deriving DecidableEq, Repr

/-- `ArxivPaperFetcher._make_query`: joins `f"cat:{category}"` and
`f"submittedDate:[{date + "0000"} TO {date + "2359"}]"` with
`" AND ".join(...)`. -/
def ArxivPaperFetcher.makeQuery (date category : String) : String :=
  let query_category := "cat:" ++ category
  let query_date :=
    "submittedDate:[" ++ (date ++ "0000") ++ " TO " ++ (date ++ "2359") ++ "]"
  String.intercalate " AND " [query_category, query_date]

/-- The query string the fetcher stores in `self.query` for a given
configuration. -/
def ArxivPaperFetcher.queryOf (cfg : ArxivPaperFetcherConfig) : String :=
  ArxivPaperFetcher.makeQuery cfg.date cfg.category

/-- The `arxiv.Search` request issued by `_fetch_papers` for a given
configuration. -/
def ArxivPaperFetcher.requestOf (cfg : ArxivPaperFetcherConfig) : SearchRequest :=
  { query := ArxivPaperFetcher.queryOf cfg
    max_results := cfg.max_results
    sort_by := .submittedDate }

/-- `ArxivPaperFetcher._fetch_papers`: issues the search and stores the
record list in `self.results`; every `except` arm logs and stores `[]`
instead of re-raising. -/
def ArxivPaperFetcher.fetchPapers (client : SearchRequest → SearchOutcome)
    (req : SearchRequest) : List ArxivResult :=
  match client req with
  | .ok results => results
  | .httpError _ => []
  | .unexpectedEmptyPageError _ => []
  | .otherError _ => []

/-- `ArxivPaperFetcher.run`: builds the query, fetches, and returns the
summaries; the Python truthiness test `if self.results:` sends both an
empty list and a missing result to the `[]` branch. -/
def ArxivPaperFetcher.run (cfg : ArxivPaperFetcherConfig)
    (client : SearchRequest → SearchOutcome) : List String :=
  let results := ArxivPaperFetcher.fetchPapers client (ArxivPaperFetcher.requestOf cfg)
  if results.isEmpty then [] else results.map (fun r => r.summary)

/-- `SlackNotifierConfig` with all four attributes assigned in
`__init__`. -/
structure SlackNotifierConfig where
  webhook_url : String
  channel : String
  username : String
  icon : String
  deriving DecidableEq, Repr

/-- Python keyword-call semantics of `SlackNotifierConfig.__init__`:
`webhook_url` and `channel` are required parameters (no default), so a
call omitting either raises `TypeError` before any attribute is set;
`username` defaults to `"ArxivSpotlighter"` and `icon` to `":+1:"`. -/
def mkSlackNotifierConfig (webhook_url channel username icon : Option String) :
    Except PyError SlackNotifierConfig :=
  match webhook_url with
  | none => .error (.typeError
      "SlackNotifierConfig.__init__() missing 1 required positional argument: webhook_url")
  | some wh =>
    match channel with
    | none => .error (.typeError
        "SlackNotifierConfig.__init__() missing 1 required positional argument: channel")
    | some ch =>
      .ok { webhook_url := wh
            channel := ch
            username := username.getD "ArxivSpotlighter"
            icon := icon.getD ":+1:" }

/-- `SlackNotifier` state: the four fields copied from the configuration in
`SlackNotifier.__init__`. -/
structure SlackNotifier where
  webhook_url : String
  channel : String
  username : String
  icon : String
  deriving DecidableEq, Repr

/-- `SlackNotifier.__init__`: copies `webhook_url`, `channel`, `username`,
`icon` out of the configuration object. -/
def mkSlackNotifier (config : SlackNotifierConfig) : SlackNotifier :=
  { webhook_url := config.webhook_url
    channel := config.channel
    username := config.username
    icon := config.icon }

/-- One element of the `"attachments"` list of the payload dict. -/
structure Attachment where
  color : String
  text : String
  deriving DecidableEq, Repr

/-- The payload dict built by `SlackNotifier._make_payload`; the POST body
is its JSON encoding (`json.dumps`), modelled structurally. -/
structure Payload where
  channel : String
  username : String
  icon_emoji : String
  attachments : List Attachment
  deriving DecidableEq, Repr

/-- `SlackNotifier._make_payload`. -/
def SlackNotifier.makePayload (n : SlackNotifier) (text color : String) : Payload :=
  { channel := n.channel
    username := n.username
    icon_emoji := n.icon
    attachments := [{ color := color, text := text }] }

/-- Result of one `requests.post` call at the transport boundary: either an
HTTP response with a status code, or a transport-level
`RequestException`. -/
inductive TransportResult where
  | response (status : Nat)
  | connectionFailure (msg : String)
  deriving DecidableEq, Repr

/-- The statuses for which `requests.Response.raise_for_status()` raises
`HTTPError` (a `RequestException` subclass): exactly the client- and
server-error codes, `400 <= status < 600`.  Informational, success, and
redirect statuses (1xx/2xx/3xx) return without raising, even though the
webhook boundary of the spec counts only 2xx as success. -/
def statusRaises (status : Nat) : Bool :=
  400 ≤ status && status < 600

/-- Whether a transport result makes `_send_request`'s `try` block raise:
either the POST itself failed, or `raise_for_status()` raised on a
4xx/5xx status. -/
def TransportResult.fails : TransportResult → Bool
  | .response status => statusRaises status
  | .connectionFailure _ => true

/-- The message of the original exception caught inside `_send_request`:
the transport error's own message, or the HTTP-status error raised by
`raise_for_status()`. -/
def TransportResult.causeMsg : TransportResult → String
  | .response status => "HTTP error for status code " ++ toString status
  | .connectionFailure msg => msg

/-- `SlackNotifier._send_request`: performs exactly one POST of the
payload, checks the status, and re-raises any `RequestException` wrapped
as `RequestException(f"Failed to send notification: {e}")`.  The second
component records every POST attempt actually made. -/
def SlackNotifier.sendRequest (transport : Payload → TransportResult)
    (payload : Payload) : Except PyError Nat × List Payload :=
  match transport payload with
  | .response status =>
    if statusRaises status then
      (.error (.requestException
        ("Failed to send notification: " ++ TransportResult.causeMsg (.response status))),
       [payload])
    else
      (.ok status, [payload])
  | .connectionFailure msg =>
    (.error (.requestException ("Failed to send notification: " ++ msg)), [payload])

/-- `SlackNotifier.run`: validates `text` and `color` (in the embedding
both are typed strings, so the `isinstance` halves of the checks are
vacuous), then builds the payload and sends it.  The trace component lists
the POSTs issued during the call. -/
def SlackNotifier.run (n : SlackNotifier) (transport : Payload → TransportResult)
    (text color : String) : Except PyError Unit × List Payload :=
  if text = "" then
    (.error (.valueError "`text` must be a non-empty string."), [])
  else if color = "" then
    (.error (.valueError "`color` must be a non-empty string."), [])
  else
    let payload := SlackNotifier.makePayload n text color
    match SlackNotifier.sendRequest transport payload with
    | (.ok _, posts) => (.ok (), posts)
    | (.error e, posts) => (.error e, posts)

/-- Python keyword-call semantics of `SlackNotifier.run(text=..., color=...)`:
both parameters are required, so omitting either raises `TypeError` at the
call, before the body (and hence any validation or POST) runs. -/
def SlackNotifier.runCall (n : SlackNotifier) (transport : Payload → TransportResult)
    (text color : Option String) : Except PyError Unit × List Payload :=
  match text, color with
  | some t, some c => SlackNotifier.run n transport t c
  | some _, none => (.error (.typeError
      "SlackNotifier.run() missing 1 required positional argument: color"), [])
  | none, some _ => (.error (.typeError
      "SlackNotifier.run() missing 1 required positional argument: text"), [])
  | none, none => (.error (.typeError
      "SlackNotifier.run() missing 2 required positional arguments: text and color"), [])

/-- Default value attached to one command-line flag in `parse_args`. -/
inductive ArgDefault where
  | str (s : String)
  | float (q : ℚ)
  | int (n : Int)
  deriving DecidableEq, Repr

/-- One `parser.add_argument` registration in `parse_args`. -/
structure ArgumentSpec where
  flag : String
  defaultValue : ArgDefault
  deriving DecidableEq, Repr

/-- The flags registered by `parse_args` in `src/main.py`, in source order:
`--model_name` (str, default `"gpt-3.5-turbo"`), `--temperature` (float,
default `0.0`, written here as the rational `0`), `--max_tokens` (int,
default `512`).  No other flag is registered. -/
def parserArguments : List ArgumentSpec :=
  [ { flag := "--model_name", defaultValue := .str "gpt-3.5-turbo" }
  , { flag := "--temperature", defaultValue := .float 0 }
  , { flag := "--max_tokens", defaultValue := .int 512 } ]

/-- Default value of a flag on the parsed namespace: `some` when
`parse_args` registered the flag, `none` when reading the attribute would
fail. -/
def parsedDefault (flag : String) : Option ArgDefault :=
  (parserArguments.find? (fun a => a.flag = flag)).map (fun a => a.defaultValue)

/-- The parsed-argument namespace consumed by `main` (`args.model_name`,
`args.temperature`, `args.max_tokens`). -/
structure Args where
  model_name : String
  temperature : ℚ
  max_tokens : Int
  deriving DecidableEq, Repr

/-- The namespace `parse_args` produces when no flags are passed. -/
def defaultArgs : Args :=
  { model_name := "gpt-3.5-turbo", temperature := 0, max_tokens := 512 }

/-- The process environment as seen by `load_environment_variables`:
`os.getenv` yields `none` for an unset variable. -/
structure Env where
  openai_api_key : Option String
  webhook_url : Option String
  deriving DecidableEq, Repr

/-- The `SimpleNamespace` of secrets returned by
`load_environment_variables`. -/
structure Secrets where
  openai_api_key : String
  webhook_url : String
  deriving DecidableEq, Repr

/-- `load_environment_variables`: raises `ValueError` when either
`OPENAI_API_KEY` or `WEBHOOK_URL` is absent, otherwise returns both. -/
def load_environment_variables (env : Env) : Except PyError Secrets :=
  match env.openai_api_key with
  | none => .error (.valueError "`OPENAI_API_KEY` is not defined.")
  | some k =>
    match env.webhook_url with
    | none => .error (.valueError "`WEBHOOK_URL` is not defined.")
    | some w => .ok { openai_api_key := k, webhook_url := w }

/-- `make_template`: the translation prompt template string of
`src/main.py`. -/
def make_template : String :=
  "\n    Please translate the following English passage into Japanese.\n\n    {english_passage}\n    "

/-- `chain.invoke({"english_passage": summary})` for the chain
`prompt_template | model | parser`: the template is instantiated with the
summary and the resulting prompt is sent to the completion model, whose
generated text the `StrOutputParser` returns unchanged. -/
def chainInvoke (completion : String → String) (summary : String) : String :=
  completion (make_template.replace "{english_passage}" summary)

/-- The observable actions of one `main` invocation: the search queries
issued to the arXiv index, the translated texts printed, and the webhook
POST bodies sent. -/
structure MainTrace where
  searchQueries : List String
  translated : List String
  posts : List Payload
  deriving DecidableEq, Repr

/-- The `for summary in summary_list:` loop of `main`: translates each
summary, constructs a notifier, and calls `notifier.run(text=result)` —
with the `color` keyword absent, exactly as in the source.  Stops at the
first exception, returning the translations produced and POSTs issued so
far. -/
def notifyLoop (transport : Payload → TransportResult) (completion : String → String)
    (ncfg : SlackNotifierConfig) :
    List String → Except PyError Unit × (List String × List Payload)
  | [] => (.ok (), ([], []))
  | summary :: rest =>
    let result := chainInvoke completion summary
    let notifier := mkSlackNotifier ncfg
    match SlackNotifier.runCall notifier transport (some result) none with
    | (.ok _, posts) =>
      let tail := notifyLoop transport completion ncfg rest
      (tail.1, (result :: tail.2.1, posts ++ tail.2.2))
    | (.error e, posts) => (.error e, ([result], posts))

/-- The `main(args)` routine of `src/main.py` (named `mainRun` because Lean
reserves `main`), with the external collaborators
injected: `now` is the current UTC date the commented-out line would have
used, `client` the arXiv search client, `completion` the hosted model,
`transport` the HTTP POST transport.  Mirrors the source line by line:
load secrets; set `date = "20240606"`; build the fetcher config (category
and max_results keep their dataclass defaults) and run the fetcher; build
the chain; construct `SlackNotifierConfig(webhook_url=...)` — with
`channel` absent, as in the source — then loop.  The trace records the
queries, translations, and POSTs that actually happened. -/
def mainRun (args : Args) (env : Env) (now : String)
    (client : SearchRequest → SearchOutcome)
    (completion : String → String)
    (transport : Payload → TransportResult) :
    Except PyError Unit × MainTrace :=
  match load_environment_variables env with
  | .error e => (.error e, { searchQueries := [], translated := [], posts := [] })
  | .ok secrets =>
    let date := "20240606"
    let fetcher_config : ArxivPaperFetcherConfig := { date := date }
    let query := ArxivPaperFetcher.queryOf fetcher_config
    let summary_list := ArxivPaperFetcher.run fetcher_config client
    match mkSlackNotifierConfig (some secrets.webhook_url) none none none with
    | .error e => (.error e, { searchQueries := [query], translated := [], posts := [] })
    | .ok notifier_config =>
      let r := notifyLoop transport completion notifier_config summary_list
      (r.1, { searchQueries := [query], translated := r.2.1, posts := r.2.2 })

/-- The `if __name__ == "__main__":` entry point: runs `main` and catches
any exception, logging it instead of re-raising; the trace is unchanged. -/
def entryPoint (args : Args) (env : Env) (now : String)
    (client : SearchRequest → SearchOutcome)
    (completion : String → String)
    (transport : Payload → TransportResult) :
    Option String × MainTrace :=
  match mainRun args env now client completion transport with
  | (.ok _, t) => (none, t)
  | (.error e, t) =>
    match e with
    | .typeError m => (some ("Unexpected error occurred: " ++ m), t)
    | .valueError m => (some ("Unexpected error occurred: " ++ m), t)
    | .requestException m => (some ("Unexpected error occurred: " ++ m), t)

/-- A valid 8-digit `YYYYMMDD` date string: length 8, digits only. -/
def validDateString (d : String) : Bool :=
  d.length == 8 && d.data.all Char.isDigit

theorem intercalate_pair (s a b : String) :
    String.intercalate s [a, b] = a ++ s ++ b := by
  simp [String.intercalate, String.intercalate.go, String.append_assoc]

/-- C3: for every FetchQuery with a valid 8-digit date string and a
non-empty category, the query built by `ArxivPaperFetcher._make_query` is
exactly one category clause `cat:<category>` and exactly one date-range
clause joined by `" AND "`, the date range running from `<date>0000`
(00:00) to `<date>2359` (23:59) of the given day. -/
theorem makeQuery_clause_structure (date category : String)
    (hdate : validDateString date = true) (hcat : category ≠ "") :
    ArxivPaperFetcher.makeQuery date category =
      ("cat:" ++ category) ++ " AND " ++
        ("submittedDate:[" ++ (date ++ "0000") ++ " TO " ++ (date ++ "2359") ++ "]") := by
  simp [ArxivPaperFetcher.makeQuery, intercalate_pair, String.append_assoc]

theorem makeQuery_clause_structure_witness :
    validDateString "20240606" = true ∧ ("quant-ph" : String) ≠ "" ∧
      ArxivPaperFetcher.makeQuery "20240606" "quant-ph" =
        ("cat:" ++ "quant-ph") ++ " AND " ++
          ("submittedDate:[" ++ ("20240606" ++ "0000") ++ " TO " ++ ("20240606" ++ "2359") ++ "]") :=
  ⟨by decide, by decide,
    makeQuery_clause_structure "20240606" "quant-ph" (by decide) (by decide)⟩

/-- C8: query construction is deterministic — two fetcher configurations
with identical `date`, `category`, and `max_results` yield byte-identical
query strings. -/
theorem queryOf_deterministic (c1 c2 : ArxivPaperFetcherConfig)
    (hd : c1.date = c2.date) (hc : c1.category = c2.category)
    (hm : c1.max_results = c2.max_results) :
    ArxivPaperFetcher.queryOf c1 = ArxivPaperFetcher.queryOf c2 := by
  simp [ArxivPaperFetcher.queryOf, hd, hc]

/-- A concrete fetcher configuration used to witness determinism. -/
def cfgA : ArxivPaperFetcherConfig :=
  { date := "20240606", category := "quant-ph", max_results := 3 }

/-- A second configuration built from the same inputs as `cfgA`. -/
def cfgB : ArxivPaperFetcherConfig :=
  { date := "20240606", category := "quant-ph", max_results := 3 }

theorem queryOf_deterministic_witness :
    cfgA.date = cfgB.date ∧ cfgA.category = cfgB.category ∧
      cfgA.max_results = cfgB.max_results ∧
      ArxivPaperFetcher.queryOf cfgA = ArxivPaperFetcher.queryOf cfgB :=
  ⟨rfl, rfl, rfl, queryOf_deterministic cfgA cfgB rfl rfl rfl⟩

/-- C4: when the search client raises any of the errors distinguished by
`_fetch_papers` (HTTP failure, empty-result error, or an unexpected
exception), `ArxivPaperFetcher.run` does not propagate it and returns the
empty list of summaries. -/
theorem fetcher_run_error_empty (cfg : ArxivPaperFetcherConfig)
    (client : SearchRequest → SearchOutcome)
    (herr : (client (ArxivPaperFetcher.requestOf cfg)).isError = true) :
    ArxivPaperFetcher.run cfg client = [] := by
  unfold ArxivPaperFetcher.run ArxivPaperFetcher.fetchPapers
  cases h : client (ArxivPaperFetcher.requestOf cfg) <;>
    simp_all [SearchOutcome.isError]

/-- A search client that always raises an HTTP error. -/
def errClient : SearchRequest → SearchOutcome :=
  fun _ => .httpError "connection refused"

theorem fetcher_run_error_empty_witness :
    (errClient (ArxivPaperFetcher.requestOf {})).isError = true ∧
      ArxivPaperFetcher.run {} errClient = [] :=
  ⟨rfl, fetcher_run_error_empty {} errClient rfl⟩

/-- C5: when the search client successfully returns zero records,
`ArxivPaperFetcher.run` returns the empty list and raises nothing. -/
theorem fetcher_run_zero_records_empty (cfg : ArxivPaperFetcherConfig)
    (client : SearchRequest → SearchOutcome)
    (hok : client (ArxivPaperFetcher.requestOf cfg) = .ok []) :
    ArxivPaperFetcher.run cfg client = [] := by
  unfold ArxivPaperFetcher.run ArxivPaperFetcher.fetchPapers
  rw [hok]
  simp

/-- A search client that always succeeds with zero records. -/
def emptyClient : SearchRequest → SearchOutcome := fun _ => .ok []

theorem fetcher_run_zero_records_empty_witness :
    emptyClient (ArxivPaperFetcher.requestOf {}) = .ok [] ∧
      ArxivPaperFetcher.run {} emptyClient = [] :=
  ⟨rfl, fetcher_run_zero_records_empty {} emptyClient rfl⟩

/-- C6: `SlackNotifier.run` with empty `text` or empty `color` raises
`ValueError` and issues zero POSTs — the payload is never sent.  (In the
embedding both arguments are typed strings, so the `isinstance` halves of
the source checks cannot fail.) -/
theorem notifier_run_invalid_no_post (n : SlackNotifier)
    (transport : Payload → TransportResult) (text color : String)
    (h : text = "" ∨ color = "") :
    (∃ m, (SlackNotifier.run n transport text color).1 = .error (.valueError m)) ∧
      (SlackNotifier.run n transport text color).2 = [] := by
  rcases h with h | h
  · subst h
    exact ⟨⟨"`text` must be a non-empty string.", by simp [SlackNotifier.run]⟩,
      by simp [SlackNotifier.run]⟩
  · subst h
    by_cases ht : text = ""
    · subst ht
      exact ⟨⟨"`text` must be a non-empty string.", by simp [SlackNotifier.run]⟩,
        by simp [SlackNotifier.run]⟩
    · exact ⟨⟨"`color` must be a non-empty string.", by simp [SlackNotifier.run, ht]⟩,
        by simp [SlackNotifier.run, ht]⟩

/-- A notifier instance with concrete configuration values. -/
def sampleNotifier : SlackNotifier :=
  { webhook_url := "https://hooks.slack.example/T000/B000"
    channel := "#papers"
    username := "ArxivSpotlighter"
    icon := ":+1:" }

/-- A transport whose POSTs always succeed with status 200. -/
def okTransport : Payload → TransportResult := fun _ => .response 200

theorem notifier_run_invalid_no_post_witness :
    (("" : String) = "" ∨ ("red" : String) = "") ∧
      ((∃ m, (SlackNotifier.run sampleNotifier okTransport "" "red").1 =
          .error (.valueError m)) ∧
        (SlackNotifier.run sampleNotifier okTransport "" "red").2 = []) :=
  ⟨Or.inl rfl, notifier_run_invalid_no_post sampleNotifier okTransport "" "red" (Or.inl rfl)⟩

/-- A transport whose POSTs always come back with HTTP status 304, a
non-2xx status for which `raise_for_status()` does not raise. -/
def redirectTransport : Payload → TransportResult := fun _ => .response 304

/-- C7 as stated is false: a 304 response is not a 2xx status, yet
`SlackNotifier.run` with valid arguments returns successfully and raises
no delivery error, because `raise_for_status()` raises only for 4xx/5xx
statuses. -/
theorem notifier_run_delivery_error_counterexample :
    (¬ (200 ≤ 304 ∧ 304 < 300)) ∧
      SlackNotifier.run sampleNotifier redirectTransport "redirected" "good" =
        (.ok (), [SlackNotifier.makePayload sampleNotifier "redirected" "good"]) :=
  ⟨by decide, rfl⟩

/-- C7 (amended): for non-empty `text` and `color`, when the POST fails —
the HTTP status is 4xx/5xx (the statuses `raise_for_status()` rejects),
or the transport raises — `SlackNotifier.run` raises a `RequestException`
whose message wraps the original cause, and makes exactly one POST
attempt (no retry).  Statuses outside `[400, 600)`, including 1xx and
3xx, are returned as success. -/
theorem notifier_run_delivery_error (n : SlackNotifier)
    (transport : Payload → TransportResult) (text color : String)
    (htext : text ≠ "") (hcolor : color ≠ "")
    (hfail : (transport (SlackNotifier.makePayload n text color)).fails = true) :
    (SlackNotifier.run n transport text color).1 =
        .error (.requestException ("Failed to send notification: " ++
          (transport (SlackNotifier.makePayload n text color)).causeMsg)) ∧
      (SlackNotifier.run n transport text color).2 =
        [SlackNotifier.makePayload n text color] := by
  unfold SlackNotifier.run SlackNotifier.sendRequest
  cases hr : transport (SlackNotifier.makePayload n text color) with
  | response status =>
    have hs : statusRaises status = true := by
      rw [hr] at hfail
      simpa [TransportResult.fails] using hfail
    simp [htext, hcolor, hr, hs, TransportResult.causeMsg]
  | connectionFailure m =>
    simp [htext, hcolor, hr, TransportResult.causeMsg]

/-- A transport whose POSTs always come back with HTTP status 500. -/
def failTransport : Payload → TransportResult := fun _ => .response 500

theorem notifier_run_delivery_error_witness :
    ("translated text" : String) ≠ "" ∧ ("good" : String) ≠ "" ∧
      (failTransport (SlackNotifier.makePayload sampleNotifier "translated text" "good")).fails
        = true ∧
      ((SlackNotifier.run sampleNotifier failTransport "translated text" "good").1 =
          .error (.requestException ("Failed to send notification: " ++
            (failTransport
              (SlackNotifier.makePayload sampleNotifier "translated text" "good")).causeMsg)) ∧
        (SlackNotifier.run sampleNotifier failTransport "translated text" "good").2 =
          [SlackNotifier.makePayload sampleNotifier "translated text" "good"]) :=
  ⟨by decide, by decide, rfl,
    notifier_run_delivery_error sampleNotifier failTransport "translated text" "good"
      (by decide) (by decide) rfl⟩

/-- C2: the command-line surface of `parse_args` registers exactly
`--model_name` (default `"gpt-3.5-turbo"`), `--temperature` (default `0`),
and `--max_tokens` (default `512`); no `--channel` flag is registered, so
parsing yields no value for it — contradicting both the spec and the
docstring of `parse_args` itself, which lists `channel` among the parsed
arguments. -/
theorem parse_args_no_channel :
    parserArguments.map (fun a => a.flag) =
        ["--model_name", "--temperature", "--max_tokens"] ∧
      parsedDefault "--model_name" = some (.str "gpt-3.5-turbo") ∧
      parsedDefault "--temperature" = some (.float 0) ∧
      parsedDefault "--max_tokens" = some (.int 512) ∧
      parsedDefault "--channel" = none := by
  refine ⟨rfl, rfl, rfl, rfl, rfl⟩

/-- C9: for every invocation of `main` whose environment provides both
secrets, the driver reaches `SlackNotifierConfig(webhook_url=...)` — a
call missing the required `channel` argument — so the run raises
`TypeError` and sends no webhook POST; moreover the loop's own call shape
`notifier.run(text=result)`, which omits the required `color` argument,
would itself raise `TypeError` without posting. -/
theorem main_raises_type_error (args : Args) (env : Env) (now : String)
    (client : SearchRequest → SearchOutcome) (completion : String → String)
    (transport : Payload → TransportResult)
    (hk : env.openai_api_key.isSome = true) (hw : env.webhook_url.isSome = true) :
    ((∃ m, (mainRun args env now client completion transport).1 =
        .error (.typeError m)) ∧
      (mainRun args env now client completion transport).2.posts = []) ∧
      ∀ (n : SlackNotifier) (result : String),
        (∃ m, (SlackNotifier.runCall n transport (some result) none).1 =
            .error (.typeError m)) ∧
          (SlackNotifier.runCall n transport (some result) none).2 = [] := by
  obtain ⟨k, hk⟩ := Option.isSome_iff_exists.mp hk
  obtain ⟨w, hw⟩ := Option.isSome_iff_exists.mp hw
  constructor
  · constructor
    · exact ⟨"SlackNotifierConfig.__init__() missing 1 required positional argument: channel",
        by simp [mainRun, load_environment_variables, mkSlackNotifierConfig, hk, hw]⟩
    · simp [mainRun, load_environment_variables, mkSlackNotifierConfig, hk, hw]
  · intro n result
    exact ⟨⟨"SlackNotifier.run() missing 1 required positional argument: color",
      by simp [SlackNotifier.runCall]⟩, by simp [SlackNotifier.runCall]⟩

/-- An environment carrying both required secrets. -/
def sampleEnv : Env :=
  { openai_api_key := some "test-api-key"
    webhook_url := some "https://hooks.slack.example/T000/B000" }

theorem main_raises_type_error_witness :
    sampleEnv.openai_api_key.isSome = true ∧ sampleEnv.webhook_url.isSome = true ∧
      (((∃ m, (mainRun defaultArgs sampleEnv "20260101" emptyClient id okTransport).1 =
          .error (.typeError m)) ∧
        (mainRun defaultArgs sampleEnv "20260101" emptyClient id okTransport).2.posts = []) ∧
        ∀ (n : SlackNotifier) (result : String),
          (∃ m, (SlackNotifier.runCall n okTransport (some result) none).1 =
              .error (.typeError m)) ∧
            (SlackNotifier.runCall n okTransport (some result) none).2 = []) :=
  ⟨rfl, rfl,
    main_raises_type_error defaultArgs sampleEnv "20260101" emptyClient id okTransport rfl rfl⟩

/-- C10: `main` never consults the clock for its fetch date — the
commented-out current-date computation is replaced by the hardcoded
literal `"20240606"` — so on every invocation with the secrets present the
one search query issued is the one for date `"20240606"` and category
`"quant-ph"`, identical across any two invocation times. -/
theorem main_date_hardcoded (args : Args) (env : Env) (now now2 : String)
    (client : SearchRequest → SearchOutcome) (completion : String → String)
    (transport : Payload → TransportResult)
    (hk : env.openai_api_key.isSome = true) (hw : env.webhook_url.isSome = true) :
    (mainRun args env now client completion transport).2.searchQueries =
        [ArxivPaperFetcher.makeQuery "20240606" "quant-ph"] ∧
      (mainRun args env now client completion transport).2.searchQueries =
        (mainRun args env now2 client completion transport).2.searchQueries := by
  obtain ⟨k, hk⟩ := Option.isSome_iff_exists.mp hk
  obtain ⟨w, hw⟩ := Option.isSome_iff_exists.mp hw
  constructor
  · simp [mainRun, load_environment_variables, mkSlackNotifierConfig, hk, hw,
      ArxivPaperFetcher.queryOf]
  · simp [mainRun, load_environment_variables, mkSlackNotifierConfig, hk, hw]

theorem main_date_hardcoded_witness :
    sampleEnv.openai_api_key.isSome = true ∧ sampleEnv.webhook_url.isSome = true ∧
      ((mainRun defaultArgs sampleEnv "20991231" emptyClient id okTransport).2.searchQueries =
          [ArxivPaperFetcher.makeQuery "20240606" "quant-ph"] ∧
        (mainRun defaultArgs sampleEnv "20991231" emptyClient id okTransport).2.searchQueries =
          (mainRun defaultArgs sampleEnv "19700101" emptyClient id okTransport).2.searchQueries) :=
  ⟨rfl, rfl,
    main_date_hardcoded defaultArgs sampleEnv "20991231" "19700101" emptyClient id okTransport
      rfl rfl⟩

/-- The mocked environment of the end-to-end scenario. -/
def scenarioEnv : Env :=
  { openai_api_key := some "test-api-key"
    webhook_url := some "https://hooks.slack.example/T000/B000" }

/-- The mocked index of the end-to-end scenario: two records with
summaries "A" and "B". -/
def scenarioClient : SearchRequest → SearchOutcome :=
  fun _ => .ok [{ summary := "A" }, { summary := "B" }]

/-- The mocked completion service of the end-to-end scenario: echoes its
input with "[JA] " prepended. -/
def scenarioCompletion : String → String := fun passage => "[JA] " ++ passage

/-- The mocked webhook of the end-to-end scenario: every POST succeeds
with status 200; the POST bodies are captured in the run trace. -/
def scenarioTransport : Payload → TransportResult := fun _ => .response 200

/-- C1: running `main` on the end-to-end scenario (date "20240606",
category "quant-ph", max_results 2, index returning summaries "A" and
"B", echoing completion service, capturing webhook) does not produce two
webhook POSTs: the run raises `TypeError` while constructing
`SlackNotifierConfig` without its required `channel` argument, and the
captured POST trace is empty. -/
theorem main_scenario_zero_posts :
    mainRun defaultArgs scenarioEnv "20240606" scenarioClient scenarioCompletion
        scenarioTransport =
      (.error (.typeError
          "SlackNotifierConfig.__init__() missing 1 required positional argument: channel"),
        { searchQueries := [ArxivPaperFetcher.makeQuery "20240606" "quant-ph"]
          translated := []
          posts := [] }) := by
  rfl
